import Mathlib

set_option maxRecDepth 100000
set_option maxHeartbeats 1000000

/-!
Verification of the Fameex exchange REST client (`src/api.py`): a shallow
embedding of its request-signing scheme (HMAC-SHA256 over
`timestamp ++ upper(method) ++ path [++ body serialization]`), of the
request construction in `send_request`, and of the thin order/asset
operations, together with theorems settling the specification's claims.

Python strings are embedded as Lean `String`; byte strings as `List Nat`
with every element `< 256`; Python dicts (whose keys are unique and
insertion-ordered) as association lists `List (String × PyVal)`.
-/

/-- A Python value as it occurs in request bodies: a string, an int, or a
float.  No arithmetic is ever performed on floats by the client — they are
only serialized — so a float is carried as its `repr` string (the exact
decimal text Python prints for it, e.g. `0.8374`). -/
inductive PyVal where
  | str (s : String)
  | int (n : Int)
  | float (r : String)
deriving DecidableEq, Repr

/-- A Python dict used as a request body: an insertion-ordered association
list with unique keys. -/
def Body := List (String × PyVal)
deriving DecidableEq, Repr

/-- Python `d[k]` lookup, `none` modelling a raised `KeyError`. -/
def lookup (d : Body) (k : String) : Option PyVal :=
  match d with
  | [] => none
  | (k', v) :: rest => if k' == k then some v else lookup rest k

/-- Python `str(v)` for the values that appear in request bodies. -/
def pyStr : PyVal → String
  | .str s => s
  | .int n => toString n
  | .float r => r

/-- Python `str.upper()` restricted to ASCII (all method strings in this
client are ASCII, where CPython and `Char.toUpper` agree). -/
def pyUpper (s : String) : String := ⟨s.data.map Char.toUpper⟩

/-! ### UTF-8 and hex encoding -/

/-- UTF-8 encoding of a single code point (Python `str.encode('utf-8')`,
one character). -/
def utf8Char (c : Char) : List Nat :=
  let n := c.toNat
  if n < 0x80 then [n]
  else if n < 0x800 then
    [0xC0 ||| (n >>> 6), 0x80 ||| (n &&& 0x3F)]
  else if n < 0x10000 then
    [0xE0 ||| (n >>> 12), 0x80 ||| ((n >>> 6) &&& 0x3F), 0x80 ||| (n &&& 0x3F)]
  else
    [0xF0 ||| (n >>> 18), 0x80 ||| ((n >>> 12) &&& 0x3F),
     0x80 ||| ((n >>> 6) &&& 0x3F), 0x80 ||| (n &&& 0x3F)]

/-- Python `s.encode('utf-8')` as a byte list. -/
def utf8Bytes (s : String) : List Nat := s.data.flatMap utf8Char

/-- Lowercase hex digit for a value `< 16`. -/
def hexChar (n : Nat) : Char :=
  if n < 10 then Char.ofNat (48 + n) else Char.ofNat (87 + n)

/-- Lowercase hex encoding of a byte list (`hashlib`'s `hexdigest()`). -/
def hexDigest (bs : List Nat) : String :=
  ⟨bs.flatMap (fun b => [hexChar ((b >>> 4) % 16), hexChar (b % 16)])⟩

/-! ### SHA-256 (FIPS 180-4), executable over `Nat`, words mod 2^32 -/

/-- Truncation to a 32-bit word. -/
def w32 (n : Nat) : Nat := n % 4294967296

/-- 32-bit modular addition. -/
def add32 (a b : Nat) : Nat := (a + b) % 4294967296

/-- 32-bit right rotation. -/
def rotr32 (x k : Nat) : Nat := w32 ((x >>> k) ||| (x <<< (32 - k)))

/-- SHA-256 `Ch e f g = (e ∧ f) ⊕ (¬e ∧ g)`. -/
def chOp (e f g : Nat) : Nat := (e &&& f) ^^^ ((e ^^^ 4294967295) &&& g)

/-- SHA-256 `Maj a b c`. -/
def majOp (a b c : Nat) : Nat := ((a &&& b) ^^^ (a &&& c)) ^^^ (b &&& c)

/-- SHA-256 big sigma 0. -/
def bigS0 (x : Nat) : Nat := (rotr32 x 2 ^^^ rotr32 x 13) ^^^ rotr32 x 22

/-- SHA-256 big sigma 1. -/
def bigS1 (x : Nat) : Nat := (rotr32 x 6 ^^^ rotr32 x 11) ^^^ rotr32 x 25

/-- SHA-256 small sigma 0. -/
def smallS0 (x : Nat) : Nat := (rotr32 x 7 ^^^ rotr32 x 18) ^^^ (x >>> 3)

/-- SHA-256 small sigma 1. -/
def smallS1 (x : Nat) : Nat := (rotr32 x 17 ^^^ rotr32 x 19) ^^^ (x >>> 10)

/-- The 64 SHA-256 round constants (FIPS 180-4 §4.2.2, here written in
decimal). -/
def K256 : List Nat :=
  [1116352408, 1899447441, 3049323471, 3921009573, 961987163,
   1508970993, 2453635748, 2870763221, 3624381080, 310598401,
   607225278, 1426881987, 1925078388, 2162078206, 2614888103,
   3248222580, 3835390401, 4022224774, 264347078, 604807628,
   770255983, 1249150122, 1555081692, 1996064986, 2554220882,
   2821834349, 2952996808, 3210313671, 3336571891, 3584528711,
   113926993, 338241895, 666307205, 773529912, 1294757372,
   1396182291, 1695183700, 1986661051, 2177026350, 2456956037,
   2730485921, 2820302411, 3259730800, 3345764771, 3516065817,
   3600352804, 4094571909, 275423344, 430227734, 506948616,
   659060556, 883997877, 958139571, 1322822218, 1537002063,
   1747873779, 1955562222, 2024104815, 2227730452, 2361852424,
   2428436474, 2756734187, 3204031479, 3329325298]

/-- The eight 32-bit words of a SHA-256 hash state. -/
structure Hash8 where
  a : Nat
  b : Nat
  c : Nat
  d : Nat
  e : Nat
  f : Nat
  g : Nat
  h : Nat
deriving DecidableEq, Repr

/-- SHA-256 initial hash value (FIPS 180-4 §5.3.3, in decimal). -/
def initH : Hash8 :=
  ⟨1779033703, 3144134277, 1013904242, 2773480762,
   1359893119, 2600822924, 528734635, 1541459225⟩

/-- Big-endian 32-bit words from a byte list (length a multiple of 4). -/
def toWordsBE : List Nat → List Nat
  | b0 :: b1 :: b2 :: b3 :: rest =>
      (((b0 <<< 24) ||| (b1 <<< 16)) ||| ((b2 <<< 8) ||| b3)) :: toWordsBE rest
  | _ => []

/-- Big-endian 8-byte encoding of the bit length. -/
def lenBytes64 (n : Nat) : List Nat :=
  [(n >>> 56) % 256, (n >>> 48) % 256, (n >>> 40) % 256, (n >>> 32) % 256,
   (n >>> 24) % 256, (n >>> 16) % 256, (n >>> 8) % 256, n % 256]

/-- SHA-256 padding: append `0x80`, zeros to 56 mod 64, then the bit
length as 8 big-endian bytes. -/
def padMsg (msg : List Nat) : List Nat :=
  msg ++ (0x80 :: List.replicate ((119 - msg.length % 64) % 64) 0)
      ++ lenBytes64 (msg.length * 8)

/-- Split a byte list into 64-byte blocks (fuel-driven so that it reduces
in the kernel; the fuel is always sufficient at the call site). -/
def chunks64 : Nat → List Nat → List (List Nat)
  | 0, _ => []
  | _ + 1, [] => []
  | fuel + 1, l => l.take 64 :: chunks64 fuel (l.drop 64)

/-- Extend the 16 message-schedule words to 64, one appended per step. -/
def extendLoop : Nat → List Nat → List Nat
  | 0, w => w
  | fuel + 1, w =>
      extendLoop fuel (w ++ [add32
        (add32 (smallS1 (w.getD (w.length - 2) 0)) (w.getD (w.length - 7) 0))
        (add32 (smallS0 (w.getD (w.length - 15) 0)) (w.getD (w.length - 16) 0))])

/-- The 64 compression rounds, consuming round constants and schedule
words in lockstep. -/
def compressLoop : List Nat → List Nat → Hash8 → Hash8
  | k :: ks, w :: ws, st =>
      let t1 := add32 st.h (add32 (bigS1 st.e)
        (add32 (chOp st.e st.f st.g) (add32 k w)))
      let t2 := add32 (bigS0 st.a) (majOp st.a st.b st.c)
      compressLoop ks ws
        ⟨add32 t1 t2, st.a, st.b, st.c, add32 st.d t1, st.e, st.f, st.g⟩
  | _, _, st => st

/-- Compress one 64-byte block into the running hash state. -/
def processBlock (st : Hash8) (block : List Nat) : Hash8 :=
  let w := extendLoop 48 (toWordsBE block)
  let r := compressLoop K256 w st
  ⟨add32 st.a r.a, add32 st.b r.b, add32 st.c r.c, add32 st.d r.d,
   add32 st.e r.e, add32 st.f r.f, add32 st.g r.g, add32 st.h r.h⟩

/-- Big-endian bytes of a 32-bit word. -/
def wordBytes (w : Nat) : List Nat :=
  [(w >>> 24) % 256, (w >>> 16) % 256, (w >>> 8) % 256, w % 256]

/-- SHA-256 digest (32 bytes) of a byte list. -/
def sha256 (msg : List Nat) : List Nat :=
  let padded := padMsg msg
  let st := (chunks64 (padded.length + 1) padded).foldl processBlock initH
  wordBytes st.a ++ wordBytes st.b ++ wordBytes st.c ++ wordBytes st.d ++
  wordBytes st.e ++ wordBytes st.f ++ wordBytes st.g ++ wordBytes st.h

/-- HMAC-SHA256 (RFC 2104) over byte lists, as `hmac.new(key, msg,
hashlib.sha256).digest()`. -/
def hmacSha256 (key msg : List Nat) : List Nat :=
  let k0 := if 64 < key.length then sha256 key else key
  let kp := k0 ++ List.replicate (64 - k0.length) 0
  sha256 ((kp.map (fun b => b ^^^ 0x5c)) ++
    sha256 ((kp.map (fun b => b ^^^ 0x36)) ++ msg))




/-! ### Python `json.dumps` with its default settings

CPython's `json.dumps` with default arguments (`ensure_ascii=True`,
`sort_keys=False`, `indent=None`) separates items with `", "` and keys
from values with `": "`, keeps dict insertion order, and escapes every
character outside the printable ASCII range `0x20..0x7e` (plus `"` and
`\`), using the short escapes where they exist and `\uXXXX` (lowercase
hex, surrogate pairs above the BMP) otherwise. -/

/-- Four-digit lowercase hex, for `\uXXXX` escapes. -/
def hex4 (n : Nat) : String :=
  ⟨[hexChar ((n >>> 12) % 16), hexChar ((n >>> 8) % 16),
    hexChar ((n >>> 4) % 16), hexChar (n % 16)]⟩

/-- JSON escape of a single character, per CPython's `ESCAPE_ASCII`. -/
def jsonEscapeChar (c : Char) : List Char :=
  if c = '"' then ['\\', '"']
  else if c = '\\' then ['\\', '\\']
  else if c = '\n' then ['\\', 'n']
  else if c = '\r' then ['\\', 'r']
  else if c = '\t' then ['\\', 't']
  else if c.toNat = 8 then ['\\', 'b']
  else if c.toNat = 12 then ['\\', 'f']
  else if c.toNat < 0x20 || 0x7e < c.toNat then
    if c.toNat < 0x10000 then ('\\' :: 'u' :: (hex4 c.toNat).data)
    else
      ('\\' :: 'u' :: (hex4 (0xD800 + ((c.toNat - 0x10000) >>> 10))).data) ++
      ('\\' :: 'u' :: (hex4 (0xDC00 + ((c.toNat - 0x10000) &&& 0x3FF))).data)
  else [c]

/-- JSON string literal (quotes included) for a Python `str`. -/
def jsonQuote (s : String) : String :=
  ⟨'"' :: s.data.flatMap jsonEscapeChar ++ ['"']⟩

/-- JSON rendering of one body value. -/
def jsonVal : PyVal → String
  | .str s => jsonQuote s
  | .int n => toString n
  | .float r => r

/-- Join strings with a separator. -/
def joinSep (sep : String) : List String → String
  | [] => ""
  | [x] => x
  | x :: xs => x ++ sep ++ joinSep sep xs

/-- Python `json.dumps(d)` for a dict `d`, default settings. -/
def json_dumps (d : Body) : String :=
  "\x7b" ++
    joinSep ", " (d.map (fun kv => jsonQuote kv.1 ++ ": " ++ jsonVal kv.2)) ++
  "\x7d"

/-! ### Python `urllib.parse.urlencode` with its default settings

`urlencode(d)` renders each pair as `quote_plus(str(k)) ++ "=" ++
quote_plus(str(v))` joined by `&`.  `quote_plus` maps a space to `+`,
keeps ASCII letters, digits and `_.-~`, and percent-encodes every other
UTF-8 byte as `%XX` with uppercase hex. -/

/-- Characters `quote_plus` leaves as-is (CPython's `ALWAYS_SAFE`,
with the default empty `safe` set). -/
def urlSafe (c : Char) : Bool :=
  (65 ≤ c.toNat && c.toNat ≤ 90) || (97 ≤ c.toNat && c.toNat ≤ 122) ||
  (48 ≤ c.toNat && c.toNat ≤ 57) ||
  c = '_' || c = '.' || c = '-' || c = '~'

/-- Uppercase hex digit for a value `< 16`. -/
def hexCharUpper (n : Nat) : Char :=
  if n < 10 then Char.ofNat (48 + n) else Char.ofNat (55 + n)

/-- Percent-encoding `%XX` of one byte, uppercase hex. -/
def pctByte (b : Nat) : List Char :=
  ['%', hexCharUpper ((b >>> 4) % 16), hexCharUpper (b % 16)]

/-- Python `urllib.parse.quote_plus` with the default empty `safe` set. -/
def quotePlus (s : String) : String :=
  ⟨s.data.flatMap (fun c =>
    if c = ' ' then ['+']
    else if urlSafe c then [c]
    else (utf8Char c).flatMap pctByte)⟩

/-- Python `urllib.parse.urlencode` on a dict body. -/
def urlencode (d : Body) : String :=
  joinSep "&" (d.map (fun kv => quotePlus kv.1 ++ "=" ++ quotePlus (pyStr kv.2)))



/-! ### `SignatureGenerator` (src/api.py lines 26–64)

`generate_signature` reads the current time; in this embedding the
millisecond timestamp string `str(int(time.time() * 1000))` is the
`timestamp` argument, supplied by the environment. -/

/-- The `body` argument of `generate_signature`: `None`, a dict, or a
string (`Optional[Union[Dict, str]]`). -/
inductive BodyArg where
  | noneB
  | dict (d : Body)
  | strB (s : String)
deriving DecidableEq, Repr

/-- Python truthiness of the `body` argument: `None`, `{}` and `""` are
falsy. -/
def bodyTruthy : BodyArg → Bool
  | .noneB => false
  | .dict d => !d.isEmpty
  | .strB s => !s.data.isEmpty

/-- The serialization `generate_signature` appends for a truthy POST
body: `json.dumps(body)` for a dict, the string itself otherwise. -/
def body_serialization : BodyArg → String
  | .noneB => ""
  | .dict d => json_dumps d
  | .strB s => s

/-- The `sign_payload` string built in lines 45–53:
`timestamp`, then `method.upper()`, then `request_path`, then — when
`body and method.upper() == 'POST'` — the body serialization. -/
def sign_payload (method request_path : String) (body : BodyArg)
    (timestamp : String) : String :=
  ((timestamp ++ pyUpper method) ++ request_path) ++
    (if bodyTruthy body && (pyUpper method == "POST")
     then body_serialization body else "")

/-- The signer object: `__init__` stores the API key and the UTF-8
encoded secret (`api_secret.encode('utf-8')`). -/
structure SignatureGenerator where
  api_key : String
  api_secret : List Nat
deriving DecidableEq, Repr

/-- `SignatureGenerator(api_key, api_secret)`. -/
def SignatureGenerator.init (api_key api_secret : String) :
    SignatureGenerator :=
  ⟨api_key, utf8Bytes api_secret⟩

/-- The dict `{'signature': ..., 'timestamp': ...}` the method returns. -/
structure SigResult where
  signature : String
  timestamp : String
deriving DecidableEq, Repr

/-- `generate_signature(method, request_path, body)` at a given
timestamp: HMAC-SHA256 of the sign payload under the stored secret,
hex-encoded. -/
def SignatureGenerator.generate_signature (g : SignatureGenerator)
    (method request_path : String) (body : BodyArg) (timestamp : String) :
    SigResult :=
  ⟨hexDigest (hmacSha256 g.api_secret
      (utf8Bytes (sign_payload method request_path body timestamp))),
   timestamp⟩

/-- State-passing view of one `generate_signature` call: the method body
contains no assignment to `self`, so the post-state is the unchanged
signer. -/
def SignatureGenerator.generate_signature_step (g : SignatureGenerator)
    (method request_path : String) (body : BodyArg) (timestamp : String) :
    SigResult × SignatureGenerator :=
  (g.generate_signature method request_path body timestamp, g)

/-! ### `send_request` (src/api.py lines 66–108) -/

/-- Constant `BASE_URL` (line 12). -/
def BASE_URL : String := "https://openapi.fameex.net"

/-- Constant `CONTENT_TYPE` (line 13). -/
def CONTENT_TYPE : String := "application/json"

/-- The HTTP call finally dispatched (lines 98–101): `requests.post`
with the JSON-serialized body when `method == "POST"`, a bodiless
`requests.get` otherwise. -/
inductive HttpCall where
  | post (sentBody : Option String)
  | get
deriving DecidableEq, Repr

/-- Everything `send_request` has determined by the moment the HTTP call
is issued: the (possibly query-augmented) request path, the URL, the
headers dict in insertion order, and the dispatched call. -/
structure RequestData where
  request_path : String
  url : String
  headers : List (String × String)
  kind : HttpCall
deriving DecidableEq, Repr

/-- Embed `send_request`'s `Optional[Dict]` body into the signer's
`body` argument. -/
def toBodyArg : Option Body → BodyArg
  | none => .noneB
  | some d => .dict d

/-- Python truthiness of an `Optional[Dict]`. -/
def optTruthy : Option Body → Bool
  | none => false
  | some d => !d.isEmpty

/-- The pure prefix of `send_request` (lines 83–101), up to and
including the choice of HTTP call: append the url-encoded body to the
path for a truthy GET body, sign over the augmented path, build the four
headers, and dispatch on `method == "POST"`. -/
def build_request (method request_path : String) (body : Option Body)
    (api_key api_secret : String) (timestamp : String) : RequestData :=
  let signer := SignatureGenerator.init api_key api_secret
  let path' := if (method == "GET") && optTruthy body
               then request_path ++ "?" ++ urlencode (body.getD [])
               else request_path
  let sd := signer.generate_signature method path' (toBodyArg body) timestamp
  { request_path := path'
    url := BASE_URL ++ path'
    headers := [("X-CH-APIKEY", api_key), ("X-CH-TS", sd.timestamp),
                ("X-CH-SIGN", sd.signature), ("Content-Type", CONTENT_TYPE)]
    kind := if method == "POST" then .post (body.map json_dumps) else .get }

/-- Error values surfaced by the client: a Python `KeyError` from a
missing dict field, or the `FameexAPIException` raised in lines
106–108 — the latter carrying its underlying cause. -/
inductive Cause where
  | transport (msg : String)
  | httpStatus (status : Nat)
  | jsonDecode
deriving DecidableEq, Repr

/-- A raised Python exception. -/
inductive PyErr where
  | keyError (k : String)
  | apiError (cause : Cause)
deriving DecidableEq, Repr

/-- The network-level outcome of the dispatched HTTP call: a raised
`requests` transport exception, or a response with a status code and an
optional parsed JSON body (`none` when `.json()` fails to parse). -/
inductive NetOutcome (α : Type) where
  | netFail (msg : String)
  | response (status : Nat) (json : Option α)
deriving DecidableEq, Repr

/-- Lines 97–108 of `send_request` applied to a network outcome:
`raise_for_status()` raises `HTTPError` exactly for statuses 400–599,
`.json()` raises `requests.exceptions.JSONDecodeError` on an unparseable
body (a `RequestException` subclass since requests 2.27), and every
`RequestException` is wrapped into `FameexAPIException`. -/
def response_result {α : Type} (net : NetOutcome α) : Except PyErr α :=
  match net with
  | .netFail msg => .error (.apiError (.transport msg))
  | .response status json =>
      if 400 ≤ status ∧ status < 600 then
        .error (.apiError (.httpStatus status))
      else
        match json with
        | some j => .ok j
        | none => .error (.apiError .jsonDecode)

/-- A whole client call: the request construction stage (which may raise
`KeyError` before any request exists) followed by the response stage. -/
def call_result {α : Type} (built : Except PyErr RequestData)
    (net : NetOutcome α) : Except PyErr (RequestData × α) := do
  let rq ← built
  let j ← response_result net
  pure (rq, j)

/-! ### `OrderManager` and `AssetManager` (src/api.py lines 110–194)

Each method reads its input dict's fields in source order (raising
`KeyError` on a missing field), builds the body dict, and calls
`send_request`; the embedding returns the constructed request. -/

/-- Holder of the credentials both manager classes store. -/
structure OrderManager where
  api_key : String
  api_secret : String
deriving DecidableEq, Repr

/-- `place_order` (lines 115–135): POST `/sapi/v1/order` with body
`{symbol, volume, side, type, price}` drawn from the input. -/
def OrderManager.place_order (m : OrderManager) (order : Body)
    (timestamp : String) : Except PyErr RequestData :=
  match lookup order "symbol" with
  | none => .error (.keyError "symbol")
  | some vsymbol =>
  match lookup order "volume" with
  | none => .error (.keyError "volume")
  | some vvolume =>
  match lookup order "side" with
  | none => .error (.keyError "side")
  | some vside =>
  match lookup order "type" with
  | none => .error (.keyError "type")
  | some vtype =>
  match lookup order "price" with
  | none => .error (.keyError "price")
  | some vprice =>
  .ok (build_request "POST" "/sapi/v1/order"
    (some [("symbol", vsymbol), ("volume", vvolume), ("side", vside),
           ("type", vtype), ("price", vprice)])
    m.api_key m.api_secret timestamp)

/-- `cancel_order` (lines 137–154): POST `/sapi/v1/cancel` with body
`{symbol, orderId: order["order_id"]}`. -/
def OrderManager.cancel_order (m : OrderManager) (order : Body)
    (timestamp : String) : Except PyErr RequestData :=
  match lookup order "symbol" with
  | none => .error (.keyError "symbol")
  | some vsymbol =>
  match lookup order "order_id" with
  | none => .error (.keyError "order_id")
  | some vid =>
  .ok (build_request "POST" "/sapi/v1/cancel"
    (some [("symbol", vsymbol), ("orderId", vid)])
    m.api_key m.api_secret timestamp)

/-- `open_orders` (lines 156–173): GET `/sapi/v1/openOrders` with body
`{symbol, limit}`. -/
def OrderManager.open_orders (m : OrderManager) (params : Body)
    (timestamp : String) : Except PyErr RequestData :=
  match lookup params "symbol" with
  | none => .error (.keyError "symbol")
  | some vsymbol =>
  match lookup params "limit" with
  | none => .error (.keyError "limit")
  | some vlimit =>
  .ok (build_request "GET" "/sapi/v1/openOrders"
    (some [("symbol", vsymbol), ("limit", vlimit)])
    m.api_key m.api_secret timestamp)

/-- Holder of `AssetManager`'s credentials. -/
structure AssetManager where
  api_key : String
  api_secret : String
deriving DecidableEq, Repr

/-- `balance` (lines 180–185): GET `/sapi/v1/account` with empty body. -/
def AssetManager.balance (m : AssetManager) (timestamp : String) :
    Except PyErr RequestData :=
  .ok (build_request "GET" "/sapi/v1/account" (some [])
    m.api_key m.api_secret timestamp)

/-- `account_balance` (lines 187–194): GET `/sapi/v1/account/balance`
with body `{symbols}`. -/
def AssetManager.account_balance (m : AssetManager) (params : Body)
    (timestamp : String) : Except PyErr RequestData :=
  match lookup params "symbols" with
  | none => .error (.keyError "symbols")
  | some vsymbols =>
  .ok (build_request "GET" "/sapi/v1/account/balance"
    (some [("symbols", vsymbols)])
    m.api_key m.api_secret timestamp)

/-! ### Auxiliary definitions used by the theorems -/

/-- A character of a lowercase hex encoding: a digit or `a`–`f`. -/
def isLowerHex (c : Char) : Bool :=
  (48 ≤ c.toNat && c.toNat ≤ 57) || (97 ≤ c.toNat && c.toNat ≤ 102)

/-- An infinite family of pairwise distinct timestamp strings. -/
def c7Fam (n : Nat) : String := ⟨List.replicate (n + 1) 'x'⟩

/-- The HMAC digest produced for the fixed request `GET /p` (no body)
under secret `"k"` at timestamp `c7Fam n`. -/
def c7Digest (n : Nat) : List Nat :=
  hmacSha256 (utf8Bytes "k")
    (utf8Bytes (sign_payload "GET" "/p" .noneB (c7Fam n)))

/-- The digest of `c7Digest n`, packaged into the finite type
`Fin 32 → Fin 256`. -/
def c7f (n : Nat) : Fin 32 → Fin 256 :=
  fun i => ⟨(c7Digest n).getD i.val 0 % 256, Nat.mod_lt _ (by norm_num)⟩

/-! ### Known-answer tests for the embedded primitives

The expected values are the standard SHA-256 / HMAC-SHA256 test results
(independently reproducible with any implementation of FIPS 180-4 and
RFC 2104) and CPython's default `json.dumps` / `urlencode` output. -/

theorem sha256_empty_vector : hexDigest (sha256 []) =
    "e3b0c44298fc1c149afbf4c8996fb92427ae41e4649b934ca495991b7852b855" := by
  decide

theorem sha256_abc_vector : hexDigest (sha256 (utf8Bytes "abc")) =
    "ba7816bf8f01cfea414140de5dae2223b00361a396177a9cb410ff61f20015ad" := by
  decide

theorem hmac_scenario1_vector : hexDigest (hmacSha256 (utf8Bytes "abc")
    (utf8Bytes "1700000000000GET/sapi/v1/account")) =
    "4f14d9fe417747f423b1551203176886d539dd9fe1b561e7b31687c644fd7eee" := by
  decide

theorem urlencode_scenario4_vector :
    urlencode [("symbol", .str "enausdt"), ("limit", .int 20)] =
    "symbol=enausdt&limit=20" := by decide

theorem json_dumps_scenario2_vector :
    json_dumps [("symbol", .str "ENAUSDT"), ("volume", .int 10),
      ("side", .str "BUY"), ("type", .str "LIMIT"),
      ("price", .float "0.8374")] =
    "\x7b\"symbol\": \"ENAUSDT\", \"volume\": 10, \"side\": \"BUY\", \"type\": \"LIMIT\", \"price\": 0.8374\x7d" := by
  decide

/-! ### Helper lemmas -/

theorem string_data_append (a b : String) : (a ++ b).data = a.data ++ b.data :=
  rfl

theorem string_eq_of_data {a b : String} (h : a.data = b.data) : a = b := by
  cases a; cases b; exact congrArg String.mk h

theorem wordBytes_lt (w : Nat) : ∀ b ∈ wordBytes w, b < 256 := by
  intro b hb
  simp [wordBytes] at hb
  rcases hb with rfl | rfl | rfl | rfl <;> omega

theorem sha256_length (msg : List Nat) : (sha256 msg).length = 32 := by
  simp [sha256, wordBytes]

theorem sha256_lt (msg : List Nat) : ∀ b ∈ sha256 msg, b < 256 := by
  intro b hb
  simp only [sha256, List.mem_append] at hb
  rcases hb with ((((((h | h) | h) | h) | h) | h) | h) | h <;>
    exact wordBytes_lt _ _ h

theorem hmacSha256_length (k m : List Nat) : (hmacSha256 k m).length = 32 := by
  unfold hmacSha256
  exact sha256_length _

theorem hmacSha256_lt (k m : List Nat) : ∀ b ∈ hmacSha256 k m, b < 256 := by
  unfold hmacSha256
  exact sha256_lt _

theorem hexChar_lowerHex (n : Nat) (h : n < 16) :
    isLowerHex (hexChar n) = true := by
  interval_cases n <;> decide

theorem hexDigest_all_lowerHex (bs : List Nat) :
    (hexDigest bs).data.all isLowerHex = true := by
  rw [List.all_eq_true]
  intro c hc
  simp only [hexDigest, List.mem_flatMap] at hc
  obtain ⟨b, -, hmem⟩ := hc
  simp only [List.mem_cons, List.not_mem_nil, or_false] at hmem
  rcases hmem with rfl | rfl <;>
    exact hexChar_lowerHex _ (Nat.mod_lt _ (by norm_num))

theorem bytes32_ext (b1 b2 : List Nat) (h1 : b1.length = 32)
    (h2 : b2.length = 32) (hlt1 : ∀ b ∈ b1, b < 256)
    (hlt2 : ∀ b ∈ b2, b < 256)
    (h : ∀ i : Fin 32, b1.getD i.val 0 % 256 = b2.getD i.val 0 % 256) :
    b1 = b2 := by
  apply List.ext_getElem (h1.trans h2.symm)
  intro i hi1 hi2
  have hi32 : i < 32 := by omega
  have hv : b1.getD i 0 % 256 = b2.getD i 0 % 256 := h ⟨i, hi32⟩
  rw [List.getD_eq_getElem b1 0 (by omega), List.getD_eq_getElem b2 0 (by omega)]
    at hv
  have m1 : b1[i] ∈ b1 := List.getElem_mem hi1
  have m2 : b2[i] ∈ b2 := List.getElem_mem hi2
  rwa [Nat.mod_eq_of_lt (hlt1 _ m1), Nat.mod_eq_of_lt (hlt2 _ m2)] at hv

theorem sign_payload_not_post (m p : String) (b : BodyArg) (t : String)
    (h : (bodyTruthy b && (pyUpper m == "POST")) = false) :
    sign_payload m p b t = t ++ (pyUpper m ++ p) := by
  apply string_eq_of_data
  simp [sign_payload, h, string_data_append]

theorem sign_payload_post (m p : String) (b : BodyArg) (t : String)
    (h : (bodyTruthy b && (pyUpper m == "POST")) = true) :
    sign_payload m p b t = t ++ (pyUpper m ++ (p ++ body_serialization b)) := by
  apply string_eq_of_data
  simp [sign_payload, h, string_data_append]

theorem call_result_error {α : Type} (e : PyErr) (net : NetOutcome α) :
    call_result (.error e) net = .error e := rfl

/-! ### Claims -/

/-- C1: for every secret, method, path, optional body and fixed timestamp
`t`, the generated signature is the lowercase hex encoding of HMAC-SHA256
keyed by the secret's UTF-8 bytes over the payload
`t ++ uppercase(method) ++ path`, with the body serialization appended
exactly when the uppercased method is `POST` and the body is truthy
(non-empty); the returned timestamp equals `t`.  In particular
`generate("GET", "/sapi/v1/account")` with secret `"abc"` at timestamp
`"1700000000000"` signs the payload `"1700000000000GET/sapi/v1/account"`
and yields HMAC-SHA256("abc", that payload) hex-encoded. -/
theorem c1_signature_scheme :
    ∀ (key secret method path : String) (body : BodyArg) (t : String),
      (SignatureGenerator.init key secret).generate_signature method path
          body t =
        ⟨hexDigest (hmacSha256 (utf8Bytes secret) (utf8Bytes
          (((t ++ pyUpper method) ++ path) ++
            (if bodyTruthy body && (pyUpper method == "POST")
             then body_serialization body else "")))), t⟩ ∧
      ((SignatureGenerator.init key secret).generate_signature method path
          body t).signature.data.all isLowerHex = true ∧
      sign_payload "GET" "/sapi/v1/account" .noneB "1700000000000" =
        "1700000000000GET/sapi/v1/account" ∧
      (SignatureGenerator.init key "abc").generate_signature "GET"
          "/sapi/v1/account" .noneB "1700000000000" =
        ⟨hexDigest (hmacSha256 (utf8Bytes "abc")
          (utf8Bytes "1700000000000GET/sapi/v1/account")), "1700000000000"⟩ := by
  intro key secret method path body t
  refine ⟨rfl, hexDigest_all_lowerHex _, by decide, ?_⟩
  have h : sign_payload "GET" "/sapi/v1/account" .noneB "1700000000000" =
      "1700000000000GET/sapi/v1/account" := by decide
  show (⟨hexDigest (hmacSha256 (utf8Bytes "abc") (utf8Bytes
      (sign_payload "GET" "/sapi/v1/account" .noneB "1700000000000"))),
    "1700000000000"⟩ : SigResult) = _
  rw [h]

/-- C8: signature generation is deterministic and mutates no state: in the
state-passing view, a `generate_signature` call leaves the signer
unchanged, and a second run on the resulting state with the same inputs
returns the same signature dict. -/
theorem c8_signature_deterministic :
    ∀ (g : SignatureGenerator) (method path : String) (body : BodyArg)
      (t : String),
      ((g.generate_signature_step method path body t).2.generate_signature_step
          method path body t).1 =
        (g.generate_signature_step method path body t).1 ∧
      (g.generate_signature_step method path body t).2 = g ∧
      ((g.generate_signature_step method path body t).2.generate_signature_step
          method path body t).2 = g :=
  fun _ _ _ _ _ => ⟨rfl, rfl, rfl⟩

/-- C7 (amended): for two calls with different timestamps but identical
secret, method, path and body, the signing payloads differ (the timestamp
is embedded at the front of the payload); the signatures themselves are
not guaranteed to differ, see the counterexample. -/
theorem c7_distinct_timestamps_distinct_payloads :
    ∀ (method path : String) (body : BodyArg) (t1 t2 : String),
      t1 ≠ t2 →
      sign_payload method path body t1 ≠ sign_payload method path body t2 := by
  intro m p b t1 t2 hne heq
  apply hne
  have hd := congrArg String.data heq
  simp only [sign_payload, String.data_append, List.append_assoc] at hd
  exact string_eq_of_data (List.append_cancel_right hd)

theorem c7_distinct_timestamps_distinct_payloads_witness :
    ("1" : String) ≠ "2" ∧
      sign_payload "GET" "/p" .noneB "1" ≠ sign_payload "GET" "/p" .noneB "2" :=
  ⟨by decide,
   c7_distinct_timestamps_distinct_payloads "GET" "/p" .noneB "1" "2"
     (by decide)⟩

/-- C7 (counterexample): the claim that different timestamps always give
different signatures is false: the signature is a 32-byte HMAC digest, so
the map from the infinitely many timestamp strings to signatures cannot be
injective — two distinct timestamps with equal signatures exist. -/
theorem c7_signature_collision_exists :
    ∃ t1 t2 : String, t1 ≠ t2 ∧
      ((SignatureGenerator.init "key" "k").generate_signature "GET" "/p"
          .noneB t1).signature =
        ((SignatureGenerator.init "key" "k").generate_signature "GET" "/p"
          .noneB t2).signature := by
  obtain ⟨n1, n2, hne, heq⟩ := Finite.exists_ne_map_eq_of_infinite c7f
  refine ⟨c7Fam n1, c7Fam n2, ?_, ?_⟩
  · intro hcontra
    apply hne
    have hd := congrArg String.data hcontra
    simp only [c7Fam] at hd
    have hlen := congrArg List.length hd
    simp only [List.length_replicate] at hlen
    omega
  · have hdig : c7Digest n1 = c7Digest n2 := by
      apply bytes32_ext _ _ (hmacSha256_length _ _) (hmacSha256_length _ _)
        (hmacSha256_lt _ _) (hmacSha256_lt _ _)
      intro i
      exact congrArg Fin.val (congrFun heq i)
    show hexDigest (c7Digest n1) = hexDigest (c7Digest n2)
    exact congrArg hexDigest hdig

/-- C2: for every GET request with a non-empty body, the URL-encoded query
string is appended to the path before signature generation and the
signature in the headers is computed over the query-augmented path; in
particular `openOrders({symbol:"enausdt", limit:20})` issues GET
`/sapi/v1/openOrders?symbol=enausdt&limit=20` and signs the payload
`t ++ "GET/sapi/v1/openOrders?symbol=enausdt&limit=20"`. -/
theorem c2_get_query_signing :
    ∀ (path : String) (body : Body) (key secret t : String)
      (m : OrderManager),
      body ≠ [] →
      (build_request "GET" path (some body) key secret t).request_path =
        (path ++ "?") ++ urlencode body ∧
      (build_request "GET" path (some body) key secret t).headers =
        [("X-CH-APIKEY", key), ("X-CH-TS", t),
         ("X-CH-SIGN",
          ((SignatureGenerator.init key secret).generate_signature "GET"
            ((path ++ "?") ++ urlencode body) (.dict body) t).signature),
         ("Content-Type", "application/json")] ∧
      m.open_orders [("symbol", .str "enausdt"), ("limit", .int 20)] t =
        .ok (build_request "GET" "/sapi/v1/openOrders"
          (some [("symbol", .str "enausdt"), ("limit", .int 20)])
          m.api_key m.api_secret t) ∧
      (build_request "GET" "/sapi/v1/openOrders"
          (some [("symbol", .str "enausdt"), ("limit", .int 20)])
          m.api_key m.api_secret t).request_path =
        "/sapi/v1/openOrders?symbol=enausdt&limit=20" ∧
      sign_payload "GET" "/sapi/v1/openOrders?symbol=enausdt&limit=20"
          (.dict [("symbol", .str "enausdt"), ("limit", .int 20)]) t =
        t ++ "GET/sapi/v1/openOrders?symbol=enausdt&limit=20" := by
  intro path body key secret t m hne
  cases body with
  | nil => exact absurd rfl hne
  | cons b bs =>
    refine ⟨rfl, rfl, rfl, rfl, ?_⟩
    rw [sign_payload_not_post _ _ _ _ (by decide)]
    have hu : pyUpper "GET" ++ "/sapi/v1/openOrders?symbol=enausdt&limit=20" =
        "GET/sapi/v1/openOrders?symbol=enausdt&limit=20" := by decide
    rw [hu]

theorem c2_get_query_signing_witness :
    (build_request "GET" "/p" (some [("a", PyVal.str "b")]) "k" "s"
      "1").request_path = ("/p" ++ "?") ++ urlencode [("a", PyVal.str "b")] :=
  (c2_get_query_signing "/p" [("a", .str "b")] "k" "s" "1" ⟨"k", "s"⟩
    (by decide)).1

/-- C3 (counterexample): for the empty dict body — non-truthy in Python —
a POST transmits the JSON payload `"{} "`-style bytes while the signing
payload appends nothing, so the signed bytes and the wire bytes diverge;
the claim fails for this mapping body. -/
theorem c3_empty_body_counterexample :
    (build_request "POST" "/p" (some []) "k" "s" "1").kind =
      HttpCall.post (some "\x7b\x7d") ∧
    sign_payload "POST" "/p" (.dict []) "1" = "1POST/p" :=
  ⟨rfl, by decide⟩

/-- C3 (amended): for every POST call with a non-empty mapping body, the
serialization appended to the signing payload is byte-identical to the
JSON payload transmitted on the wire: one string `s = json_dumps body` is
both the transmitted body and the suffix of the signing payload. -/
theorem c3_post_body_roundtrip :
    ∀ (path : String) (body : Body) (key secret t : String),
      body ≠ [] →
      ∃ s : String,
        (build_request "POST" path (some body) key secret t).kind =
          HttpCall.post (some s) ∧
        s = json_dumps body ∧
        sign_payload "POST" path (.dict body) t =
          t ++ ("POST" ++ (path ++ s)) := by
  intro path body key secret t hne
  refine ⟨json_dumps body, rfl, rfl, ?_⟩
  have hcond : (bodyTruthy (.dict body) && (pyUpper "POST" == "POST")) =
      true := by
    cases body with
    | nil => exact absurd rfl hne
    | cons b bs => rfl
  rw [sign_payload_post _ _ _ _ hcond]
  have hup : pyUpper "POST" = "POST" := by decide
  rw [hup]
  rfl

theorem c3_post_body_roundtrip_witness :
    ∃ s : String,
      (build_request "POST" "/p" (some [("a", PyVal.int 1)]) "k" "sec"
        "1").kind = HttpCall.post (some s) ∧
      s = json_dumps [("a", PyVal.int 1)] ∧
      sign_payload "POST" "/p" (.dict [("a", PyVal.int 1)]) "1" =
        "1" ++ ("POST" ++ ("/p" ++ s)) :=
  c3_post_body_roundtrip "/p" [("a", .int 1)] "k" "sec" "1" (by decide)

/-- C4 (counterexample): `raise_for_status` raises only for statuses
400–599, so a non-2xx status outside that range (here 300, reachable
e.g. as a 300/304 response that `requests` delivers to the caller) with a
JSON-parseable body is returned as a value rather than failing with
`ApiError`, refuting the claim for "any non-2xx status". -/
theorem c4_non2xx_counterexample :
    @response_result Nat (.response 300 (some 7)) = .ok 7 ∧
      ¬(200 ≤ 300 ∧ 300 ≤ 299) :=
  ⟨rfl, by decide⟩

/-- C4 (amended): every network-level failure and every 4xx/5xx status
fails with the single error kind `ApiError` carrying the cause; any other
status with a JSON-parseable body returns the parsed JSON as-is; and
every call either fully succeeds with a parsed value or fully fails with
an `ApiError` — no other outcome of the response stage exists. -/
theorem c4_error_handling :
    ∀ (α : Type) (msg : String) (s : Nat) (jo : Option α) (j : α)
      (net : NetOutcome α),
      @response_result α (.netFail msg) =
        .error (.apiError (.transport msg)) ∧
      (400 ≤ s → s < 600 →
        @response_result α (.response s jo) =
          .error (.apiError (.httpStatus s))) ∧
      (s < 400 ∨ 600 ≤ s →
        @response_result α (.response s (some j)) = .ok j) ∧
      ((∃ x, @response_result α net = .ok x) ∨
        (∃ c, @response_result α net = .error (.apiError c))) := by
  intro α msg s jo j net
  refine ⟨rfl, ?_, ?_, ?_⟩
  · intro h1 h2
    simp only [response_result]
    rw [if_pos ⟨h1, h2⟩]
  · intro h
    have hn : ¬(400 ≤ s ∧ s < 600) := by rcases h with h | h <;> omega
    simp only [response_result]
    rw [if_neg hn]
  · cases net with
    | netFail m2 => exact Or.inr ⟨.transport m2, rfl⟩
    | response st b =>
      by_cases hc : 400 ≤ st ∧ st < 600
      · refine Or.inr ⟨.httpStatus st, ?_⟩
        simp only [response_result]
        rw [if_pos hc]
      · cases b with
        | none =>
          refine Or.inr ⟨.jsonDecode, ?_⟩
          simp only [response_result]
          rw [if_neg hc]
        | some x =>
          refine Or.inl ⟨x, ?_⟩
          simp only [response_result]
          rw [if_neg hc]

theorem c4_error_handling_witness :
    @response_result Nat (.netFail "connection timed out") =
      .error (.apiError (.transport "connection timed out")) ∧
    @response_result Nat (.response 400 (some 1)) =
      .error (.apiError (.httpStatus 400)) ∧
    @response_result Nat (.response 200 (some 5)) = .ok 5 ∧
    ((∃ x, @response_result Nat (.response 503 none) = .ok x) ∨
      (∃ c, @response_result Nat (.response 503 none) =
        .error (.apiError c))) := by
  have h1 := c4_error_handling Nat "connection timed out" 400 (some 1)
    (5 : Nat) (.response 503 none)
  have h2 := c4_error_handling Nat "connection timed out" 200 (some 1)
    (5 : Nat) (.response 503 none)
  exact ⟨h1.1, h1.2.1 (by decide) (by decide),
    h2.2.2.1 (Or.inl (by decide)), h2.2.2.2⟩

/-- C5: `placeOrder(order)` issues a POST to `/sapi/v1/order` whose body
dict holds exactly the fields `symbol, volume, side, type, price` taken
from the input, in that order, transmitted as its JSON serialization; in
particular the example order from the spec issues exactly that request
(its JSON wire form, with CPython's default separators, is recorded by
the final conjunct). -/
theorem c5_place_order_body :
    ∀ (m : OrderManager) (order : Body) (t : String) (v1 v2 v3 v4 v5 : PyVal),
      lookup order "symbol" = some v1 →
      lookup order "volume" = some v2 →
      lookup order "side" = some v3 →
      lookup order "type" = some v4 →
      lookup order "price" = some v5 →
      m.place_order order t =
        .ok (build_request "POST" "/sapi/v1/order"
          (some [("symbol", v1), ("volume", v2), ("side", v3), ("type", v4),
                 ("price", v5)]) m.api_key m.api_secret t) ∧
      (build_request "POST" "/sapi/v1/order"
          (some [("symbol", v1), ("volume", v2), ("side", v3), ("type", v4),
                 ("price", v5)]) m.api_key m.api_secret t).kind =
        HttpCall.post (some (json_dumps
          [("symbol", v1), ("volume", v2), ("side", v3), ("type", v4),
           ("price", v5)])) ∧
      m.place_order [("symbol", .str "ENAUSDT"), ("volume", .int 10),
          ("side", .str "BUY"), ("type", .str "LIMIT"),
          ("price", .float "0.8374")] t =
        .ok (build_request "POST" "/sapi/v1/order"
          (some [("symbol", .str "ENAUSDT"), ("volume", .int 10),
                 ("side", .str "BUY"), ("type", .str "LIMIT"),
                 ("price", .float "0.8374")]) m.api_key m.api_secret t) ∧
      json_dumps [("symbol", .str "ENAUSDT"), ("volume", .int 10),
          ("side", .str "BUY"), ("type", .str "LIMIT"),
          ("price", .float "0.8374")] =
        "\x7b\"symbol\": \"ENAUSDT\", \"volume\": 10, \"side\": \"BUY\", \"type\": \"LIMIT\", \"price\": 0.8374\x7d" := by
  intro m order t v1 v2 v3 v4 v5 h1 h2 h3 h4 h5
  refine ⟨?_, rfl, rfl, by decide⟩
  simp [OrderManager.place_order, h1, h2, h3, h4, h5]

theorem c5_place_order_body_witness :
    OrderManager.place_order ⟨"k", "s"⟩
        [("symbol", PyVal.str "ENAUSDT"), ("volume", PyVal.int 10),
         ("side", PyVal.str "BUY"), ("type", PyVal.str "LIMIT"),
         ("price", PyVal.float "0.8374")] "1" =
      .ok (build_request "POST" "/sapi/v1/order"
        (some [("symbol", PyVal.str "ENAUSDT"), ("volume", PyVal.int 10),
               ("side", PyVal.str "BUY"), ("type", PyVal.str "LIMIT"),
               ("price", PyVal.float "0.8374")]) "k" "s" "1") :=
  (c5_place_order_body ⟨"k", "s"⟩
    [("symbol", .str "ENAUSDT"), ("volume", .int 10), ("side", .str "BUY"),
     ("type", .str "LIMIT"), ("price", .float "0.8374")] "1"
    (.str "ENAUSDT") (.int 10) (.str "BUY") (.str "LIMIT")
    (.float "0.8374") rfl rfl rfl rfl rfl).1

/-- C6: the constructed headers are exactly the four — `X-CH-APIKEY`
holding the key verbatim, `X-CH-TS` the timestamp, `X-CH-SIGN` the hex
HMAC signature, and `Content-Type` fixed to `application/json` — and the
secret influences the request only through the HMAC signature: two
secrets whose signatures agree produce identical requests, so the secret
itself is never placed in a header or in the transmitted payload. -/
theorem c6_headers_exact :
    ∀ (method path : String) (body : Option Body)
      (key secret secret2 t : String),
      (∀ (m p : String) (b : BodyArg) (ts : String),
        (SignatureGenerator.init key secret).generate_signature m p b ts =
          (SignatureGenerator.init key secret2).generate_signature m p b ts) →
      (build_request method path body key secret t).headers =
        [("X-CH-APIKEY", key), ("X-CH-TS", t),
         ("X-CH-SIGN",
          ((SignatureGenerator.init key secret).generate_signature method
            (if (method == "GET") && optTruthy body
             then (path ++ "?") ++ urlencode (body.getD [])
             else path) (toBodyArg body) t).signature),
         ("Content-Type", "application/json")] ∧
      build_request method path body key secret t =
        build_request method path body key secret2 t := by
  intro method path body key secret secret2 t H
  constructor
  · rfl
  · simp only [build_request]
    rw [H]

theorem c6_headers_exact_witness :
    (build_request "GET" "/sapi/v1/account" (some []) "k" "s" "1").headers =
      [("X-CH-APIKEY", "k"), ("X-CH-TS", "1"),
       ("X-CH-SIGN",
        ((SignatureGenerator.init "k" "s").generate_signature "GET"
          (if (("GET" : String) == "GET") && optTruthy (some ([] : Body))
           then ("/sapi/v1/account" ++ "?") ++
             urlencode ((some ([] : Body)).getD [])
           else "/sapi/v1/account") (toBodyArg (some [])) "1").signature),
       ("Content-Type", "application/json")] ∧
    build_request "GET" "/sapi/v1/account" (some []) "k" "s" "1" =
      build_request "GET" "/sapi/v1/account" (some []) "k" "s" "1" :=
  c6_headers_exact "GET" "/sapi/v1/account" (some []) "k" "s" "s" "1"
    (fun _ _ _ _ => rfl)

/-- C9: for a method `m` with `uppercase(m) = "POST"` but `m ≠ "POST"`
(e.g. `"post"`) and a non-empty body, the signing payload includes the
serialized body (the signing check uppercases), while the issued request
is a bodiless GET on the unaugmented path (both the query-append check
and the dispatch compare `m` case-sensitively), so signed bytes and
transmitted request diverge. -/
theorem c9_method_case_mismatch :
    ∀ (method path : String) (body : Body) (key secret t : String),
      pyUpper method = "POST" → method ≠ "POST" → body ≠ [] →
      (build_request method path (some body) key secret t).request_path =
        path ∧
      (build_request method path (some body) key secret t).kind =
        HttpCall.get ∧
      sign_payload method path (.dict body) t =
        t ++ ("POST" ++ (path ++ json_dumps body)) := by
  intro method path body key secret t hup hnp hb
  have hng : method ≠ "GET" := by
    intro h
    rw [h] at hup
    exact absurd hup (by decide)
  have hg : (method == "GET") = false := beq_eq_false_iff_ne.mpr hng
  have hp : (method == "POST") = false := beq_eq_false_iff_ne.mpr hnp
  refine ⟨?_, ?_, ?_⟩
  · simp [build_request, hg]
  · simp [build_request, hp]
  · have hcond : (bodyTruthy (.dict body) && (pyUpper method == "POST")) =
        true := by
      cases body with
      | nil => exact absurd rfl hb
      | cons x xs => simp [bodyTruthy, hup]
    rw [sign_payload_post _ _ _ _ hcond, hup]
    rfl

theorem c9_method_case_mismatch_witness :
    (build_request "post" "/p" (some [("a", PyVal.int 1)]) "k" "s"
      "1").request_path = "/p" ∧
    (build_request "post" "/p" (some [("a", PyVal.int 1)]) "k" "s"
      "1").kind = HttpCall.get ∧
    sign_payload "post" "/p" (.dict [("a", PyVal.int 1)]) "1" =
      "1" ++ ("POST" ++ ("/p" ++ json_dumps [("a", PyVal.int 1)])) :=
  c9_method_case_mismatch "post" "/p" [("a", .int 1)] "k" "s" "1"
    (by decide) (by decide) (by decide)

/-- C10: an operation whose input dict lacks a required field fails with a
`KeyError` (not an `ApiError`), whatever the network would have answered —
the request (and with it the signature) is never constructed. -/
theorem c10_missing_field_keyerror :
    ∀ (m : OrderManager) (am : AssetManager) (input : Body) (t : String)
      (α : Type) (net : NetOutcome α),
      ((∃ k, k ∈ ["symbol", "volume", "side", "type", "price"] ∧
          lookup input k = none) →
        ∃ k, call_result (m.place_order input t) net =
          .error (.keyError k)) ∧
      ((∃ k, k ∈ ["symbol", "order_id"] ∧ lookup input k = none) →
        ∃ k, call_result (m.cancel_order input t) net =
          .error (.keyError k)) ∧
      ((∃ k, k ∈ ["symbol", "limit"] ∧ lookup input k = none) →
        ∃ k, call_result (m.open_orders input t) net =
          .error (.keyError k)) ∧
      (lookup input "symbols" = none →
        call_result (am.account_balance input t) net =
          .error (.keyError "symbols")) := by
  intro m am input t α net
  refine ⟨?_, ?_, ?_, ?_⟩
  · rintro ⟨k, hk, hnone⟩
    cases h1 : lookup input "symbol" with
    | none =>
      exact ⟨"symbol", by simp [OrderManager.place_order, h1,
        call_result_error]⟩
    | some v1 =>
      cases h2 : lookup input "volume" with
      | none =>
        exact ⟨"volume", by simp [OrderManager.place_order, h1, h2,
          call_result_error]⟩
      | some v2 =>
        cases h3 : lookup input "side" with
        | none =>
          exact ⟨"side", by simp [OrderManager.place_order, h1, h2, h3,
            call_result_error]⟩
        | some v3 =>
          cases h4 : lookup input "type" with
          | none =>
            exact ⟨"type", by simp [OrderManager.place_order, h1, h2, h3, h4,
              call_result_error]⟩
          | some v4 =>
            cases h5 : lookup input "price" with
            | none =>
              exact ⟨"price", by simp [OrderManager.place_order, h1, h2, h3,
                h4, h5, call_result_error]⟩
            | some v5 =>
              exfalso
              simp only [List.mem_cons, List.not_mem_nil, or_false] at hk
              rcases hk with rfl | rfl | rfl | rfl | rfl <;> simp_all
  · rintro ⟨k, hk, hnone⟩
    cases h1 : lookup input "symbol" with
    | none =>
      exact ⟨"symbol", by simp [OrderManager.cancel_order, h1,
        call_result_error]⟩
    | some v1 =>
      cases h2 : lookup input "order_id" with
      | none =>
        exact ⟨"order_id", by simp [OrderManager.cancel_order, h1, h2,
          call_result_error]⟩
      | some v2 =>
        exfalso
        simp only [List.mem_cons, List.not_mem_nil, or_false] at hk
        rcases hk with rfl | rfl <;> simp_all
  · rintro ⟨k, hk, hnone⟩
    cases h1 : lookup input "symbol" with
    | none =>
      exact ⟨"symbol", by simp [OrderManager.open_orders, h1,
        call_result_error]⟩
    | some v1 =>
      cases h2 : lookup input "limit" with
      | none =>
        exact ⟨"limit", by simp [OrderManager.open_orders, h1, h2,
          call_result_error]⟩
      | some v2 =>
        exfalso
        simp only [List.mem_cons, List.not_mem_nil, or_false] at hk
        rcases hk with rfl | rfl <;> simp_all
  · intro hnone
    simp [AssetManager.account_balance, hnone, call_result_error]

theorem c10_missing_field_keyerror_witness :
    (∃ k, call_result (OrderManager.place_order ⟨"k", "s"⟩ [] "1")
        (NetOutcome.response 200 (some (0 : Nat))) =
      .error (.keyError k)) ∧
    (∃ k, call_result (OrderManager.cancel_order ⟨"k", "s"⟩ [] "1")
        (NetOutcome.response 200 (some (0 : Nat))) =
      .error (.keyError k)) ∧
    (∃ k, call_result (OrderManager.open_orders ⟨"k", "s"⟩ [] "1")
        (NetOutcome.response 200 (some (0 : Nat))) =
      .error (.keyError k)) ∧
    call_result (AssetManager.account_balance ⟨"k", "s"⟩ [] "1")
        (NetOutcome.response 200 (some (0 : Nat))) =
      .error (.keyError "symbols") := by
  have h := c10_missing_field_keyerror ⟨"k", "s"⟩ ⟨"k", "s"⟩ [] "1" Nat
    (.response 200 (some 0))
  exact ⟨h.1 ⟨"symbol", by decide, rfl⟩, h.2.1 ⟨"symbol", by decide, rfl⟩,
    h.2.2.1 ⟨"symbol", by decide, rfl⟩, h.2.2.2 rfl⟩
